import Mathlib

/-!
Shallow embedding of the Kraken-Seller trailing-sell bot (`src/main.py`),
centred on `KrakenTrailingSellBot.run_once` and `_get_holdings`.

Modelling choices:
* Python floats are modelled as exact rationals (`ℚ`); the sheet's
  10-decimal rounding on write is not modelled (the spec describes exact
  arithmetic).
* A sheet row is a `Record`; blank cells for `CostBasis`/`RealizedPct`
  are `none`.  The `LastUpdated` timestamp column (wall-clock time) is
  not modelled.
* The ledger (the sheet keyed by the `Asset` column) is a function
  `String → Option Record`; `run_once`'s row writes/appends become the
  pointwise update `runOnce`.
* Network effects are parameters: `price : String → Option ℚ` (`none`
  models a failed/unknown-pair ticker fetch, which `run_once` skips) and
  `sellOk : String → Bool` (the boolean result of `_place_market_sell`;
  `DRY_RUN` makes it constantly `true`).
-/

namespace KrakenSeller

/-- The `Status` column: ACTIVE / CLOSED / CLOSED_EXTERNAL. -/
inductive RecStatus
  | ACTIVE
  | CLOSED
  | CLOSED_EXTERNAL
deriving DecidableEq

/-- The two close reasons raised by `run_once` (lines 428-448). -/
inductive SellReason
  | TRAILING_TAKE_PROFIT
  | STOP_LOSS
deriving DecidableEq

/-- Strategy parameters (env-configured constants, lines 57-63). -/
structure Config where
  STOP_LOSS_PCT : ℚ
  ARM_THRESHOLD_PCT : ℚ
  TRAILING_DROP_PCT : ℚ
  FEE_BUFFER_PCT : ℚ
deriving DecidableEq

/-- The defaults: STOP_LOSS_PCT=-3.0, ARM_THRESHOLD_PCT=5.0,
TRAILING_DROP_PCT=3.0, FEE_BUFFER_PCT=0.5. -/
def defaultConfig : Config :=
  { STOP_LOSS_PCT := -3
    ARM_THRESHOLD_PCT := 5
    TRAILING_DROP_PCT := 3
    FEE_BUFFER_PCT := 1/2 }

/-- One sheet row (HEADERS, lines 18-31), minus the timestamp column. -/
structure Record where
  asset : String
  assetCode : String
  pair : String
  positionSize : ℚ
  costBasis : Option ℚ
  currentPrice : ℚ
  unrealizedPct : ℚ
  athUnrealizedPct : ℚ
  armed : Bool
  status : RecStatus
  realizedPct : Option ℚ
deriving DecidableEq

/-- One entry of the `_get_holdings` result: altname key, Kraken asset
code and positive balance (lines 180-224). -/
structure Holding where
  altname : String
  assetCode : String
  balance : ℚ
deriving DecidableEq

/-- `info.get(asset_code, {}); info.get("altname", asset_code)`
(lines 202-203): translate a Kraken asset code to its altname, falling
back to the code itself. -/
def altnameOf (assetInfo : List (String × String)) (code : String) : String :=
  match assetInfo.lookup code with
  | some alt => alt
  | none => code

/-- `_get_holdings` (lines 194-224): keep positive balances, skipping the
base currency / USD / EUR, the KFEE fee token, and altnames containing
a '.' (Python's `"." in altname`, i.e. membership of the character in
the string, written here over the character list).  `balances` is the
`get_balances` result in iteration order. -/
def getHoldings (baseCurrency : String) (assetInfo : List (String × String))
    (balances : List (String × ℚ)) : List Holding :=
  balances.filterMap (fun cb =>
    if cb.2 ≤ 0 then none
    else
      let altname := altnameOf assetInfo cb.1
      if altname.toUpper = baseCurrency ∨ altname.toUpper = "USD"
          ∨ altname.toUpper = "EUR" then none
      else if altname.toUpper = "KFEE" then none
      else if altname.data.contains '.' then none
      else some ⟨altname, cb.1, cb.2⟩)

/-- The Python `holdings` dict is keyed by altname with later balance
entries overwriting earlier ones, so lookup takes the last match. -/
def lookupHolding (holdings : List Holding) (a : String) : Option Holding :=
  (holdings.filter (fun h => h.altname = a)).getLast?

/-- The per-asset state loaded from the sheet row at the top of the
holdings loop (lines 372-415): status is normalized to ACTIVE, with
a fresh campaign (costBasis := price, ATH := 0, armed := false,
realizedPct cleared) on a missing row or a non-ACTIVE row, and
costBasis initialized to the price when the ACTIVE row's cell is blank. -/
structure EvalState where
  status : RecStatus
  costBasisValue : ℚ
  athUnreal : ℚ
  armed : Bool
  realizedPct : Option ℚ
deriving DecidableEq

/-- Lines 372-415: load the row or create defaults. -/
def loadState (price : ℚ) (prev : Option Record) : EvalState :=
  match prev with
  | none =>
      { status := RecStatus.ACTIVE, costBasisValue := price,
        athUnreal := 0, armed := false, realizedPct := none }
  | some rec =>
      if rec.status ≠ RecStatus.ACTIVE then
        { status := RecStatus.ACTIVE, costBasisValue := price,
          athUnreal := 0, armed := false, realizedPct := none }
      else
        { status := RecStatus.ACTIVE
          costBasisValue :=
            match rec.costBasis with
            | some v => v
            | none => price
          athUnreal := rec.athUnrealizedPct
          armed := rec.armed
          realizedPct := rec.realizedPct }

/-- Lines 417-421: gross unrealized percentage P&L, guarding the zero
cost basis. -/
def computeUnrealPct (costBasisValue price : ℚ) : ℚ :=
  if costBasisValue = 0 then 0
  else (price - costBasisValue) / costBasisValue * 100

/-- Lines 428-446: the close reason raised for an ACTIVE row, given the
armed flag, the updated ATH and the fresh unrealized pct. -/
def sellSignal (cfg : Config) (armed : Bool) (athUnreal unrealPct : ℚ) :
    Option SellReason :=
  if armed then
    if athUnreal - unrealPct ≥ cfg.TRAILING_DROP_PCT + cfg.FEE_BUFFER_PCT then
      some SellReason.TRAILING_TAKE_PROFIT
    else none
  else
    if unrealPct ≤ cfg.STOP_LOSS_PCT + cfg.FEE_BUFFER_PCT then
      some SellReason.STOP_LOSS
    else none

/-- Lines 434-448: the armed flag after the if/elif chain (arming happens
only in the unarmed, no-stop-loss branch, at `unreal_pct >= arm_trigger`). -/
def armedAfterSignal (cfg : Config) (armed : Bool) (unrealPct : ℚ) : Bool :=
  if armed then armed
  else if unrealPct ≤ cfg.STOP_LOSS_PCT + cfg.FEE_BUFFER_PCT then armed
  else if unrealPct ≥ cfg.ARM_THRESHOLD_PCT + cfg.FEE_BUFFER_PCT then true
  else armed

/-- The evaluator's fresh `unreal_pct` for a held asset (lines 417-421
applied to the loaded state). -/
def cycleUnreal (price : ℚ) (prev : Option Record) : ℚ :=
  computeUnrealPct (loadState price prev).costBasisValue price

/-- Line 424: `ath_unreal = max(ath_unreal, unreal_pct)`. -/
def cycleAth (price : ℚ) (prev : Option Record) : ℚ :=
  max (loadState price prev).athUnreal (cycleUnreal price prev)

/-- Lines 426-446: the `sell_reason` variable after the status check (the
signal block runs only for ACTIVE status, which loading guarantees). -/
def cycleSignal (cfg : Config) (price : ℚ) (prev : Option Record) :
    Option SellReason :=
  if (loadState price prev).status = RecStatus.ACTIVE then
    sellSignal cfg (loadState price prev).armed (cycleAth price prev)
      (cycleUnreal price prev)
  else none

/-- The `armed` variable after the signal block. -/
def cycleArmed (cfg : Config) (price : ℚ) (prev : Option Record) : Bool :=
  if (loadState price prev).status = RecStatus.ACTIVE then
    armedAfterSignal cfg (loadState price prev).armed (cycleUnreal price prev)
  else (loadState price prev).armed

/-- Lines 237-276 and 450-455: the liquidation request `run_once` issues,
if any — a market sell of the full held balance on the altname/base pair. -/
structure SellOrder where
  pair : String
  volume : ℚ
  reason : SellReason
deriving DecidableEq

/-- Lines 450-455: a sell is attempted iff a reason was raised and the
balance is positive, always with the full balance. -/
def sellRequest (cfg : Config) (baseCurrency : String) (h : Holding)
    (price : ℚ) (prev : Option Record) : Option SellOrder :=
  match cycleSignal cfg price prev with
  | some r => if 0 < h.balance then
      some { pair := h.altname ++ baseCurrency, volume := h.balance,
             reason := r }
    else none
  | none => none

/-- Lines 372-488: the full holdings-loop body for one held asset with a
successfully fetched price — the row written back (via `build_row`).
A failed sell leaves every variable exactly as before the sell block,
so the failed and the not-attempted case produce the same ACTIVE row. -/
def evalHolding (cfg : Config) (baseCurrency : String) (h : Holding)
    (price : ℚ) (sellOk : Bool) (prev : Option Record) : Record :=
  if (cycleSignal cfg price prev).isSome ∧ 0 < h.balance ∧ sellOk = true then
    { asset := h.altname
      assetCode := h.assetCode
      pair := h.altname ++ baseCurrency
      positionSize := 0
      costBasis := none
      currentPrice := price
      unrealizedPct := 0
      athUnrealizedPct := cycleAth price prev
      armed := cycleArmed cfg price prev
      status := RecStatus.CLOSED
      realizedPct := some (cycleUnreal price prev - cfg.FEE_BUFFER_PCT) }
  else
    { asset := h.altname
      assetCode := h.assetCode
      pair := h.altname ++ baseCurrency
      positionSize := h.balance
      costBasis := some (loadState price prev).costBasisValue
      currentPrice := price
      unrealizedPct := cycleUnreal price prev
      athUnrealizedPct := cycleAth price prev
      armed := cycleArmed cfg price prev
      status := RecStatus.ACTIVE
      realizedPct := (loadState price prev).realizedPct }

/-- Lines 490-531: the row written for a previously ACTIVE record whose
asset is absent from holdings. -/
def closeExternal (rec : Record) : Record :=
  { asset := rec.asset
    assetCode := rec.assetCode
    pair := rec.pair
    positionSize := 0
    costBasis := none
    currentPrice := rec.currentPrice
    unrealizedPct := 0
    athUnrealizedPct := rec.athUnrealizedPct
    armed := rec.armed
    status := RecStatus.CLOSED_EXTERNAL
    realizedPct := none }

/-- The ledger: sheet rows keyed by the `Asset` column. -/
abbrev Ledger := String → Option Record

/-- `run_once` (lines 327-531) as a ledger transformer.  For each held
asset with a fetched price the row is created/updated by the holdings
loop; a price-fetch failure skips the asset (row untouched); an asset
absent from holdings is closed externally when its row is ACTIVE and
left untouched otherwise. -/
def runOnce (cfg : Config) (baseCurrency : String) (holdings : List Holding)
    (price : String → Option ℚ) (sellOk : String → Bool) (L : Ledger) :
    Ledger :=
  fun a =>
    match lookupHolding holdings a with
    | some h =>
        match price a with
        | some p => some (evalHolding cfg baseCurrency h p (sellOk a) (L a))
        | none => L a
    | none =>
        match L a with
        | none => none
        | some rec =>
            if rec.status = RecStatus.ACTIVE then some (closeExternal rec)
            else some rec

/-! Concrete fixtures used by the witness and counterexample theorems. -/

/-- An unarmed ACTIVE row at its cost basis; a drop to 97 hits the
buffered stop-loss trigger (-2.5). -/
def recStopW : Record :=
  { asset := "XBT", assetCode := "XXBT", pair := "XBTUSD", positionSize := 1,
    costBasis := some 100, currentPrice := 100, unrealizedPct := 0,
    athUnrealizedPct := 0, armed := false, status := RecStatus.ACTIVE,
    realizedPct := none }

/-- A CLOSED row with leftover campaign fields, for reactivation tests. -/
def recClosedW : Record :=
  { asset := "ETH", assetCode := "XETH", pair := "ETHUSD", positionSize := 0,
    costBasis := none, currentPrice := 40, unrealizedPct := 0,
    athUnrealizedPct := 12, armed := true, status := RecStatus.CLOSED,
    realizedPct := some 7 }

/-- An armed ACTIVE row. -/
def recActiveW : Record :=
  { asset := "SOL", assetCode := "SOL", pair := "SOLUSD", positionSize := 3,
    costBasis := some 20, currentPrice := 25, unrealizedPct := 25,
    athUnrealizedPct := 30, armed := true, status := RecStatus.ACTIVE,
    realizedPct := none }

/-- A one-row ledger holding `recActiveW`. -/
def ledgerSolW : Ledger := fun a => if a = "SOL" then some recActiveW else none

/-- An unarmed ACTIVE row whose recorded ATH (100) is far above the
unrealized pct a price of 106 yields (6): cycle one arms it, cycle two
then trips the trailing take-profit. -/
def recDrift : Record :=
  { asset := "XBT", assetCode := "XXBT", pair := "XBTUSD", positionSize := 1,
    costBasis := some 100, currentPrice := 100, unrealizedPct := 0,
    athUnrealizedPct := 100, armed := false, status := RecStatus.ACTIVE,
    realizedPct := none }

/-- A single held asset XBT with balance 1. -/
def holdingsDrift : List Holding := [⟨"XBT", "XXBT", 1⟩]

/-- XBT trades at 106. -/
def priceDrift : String → Option ℚ := fun a =>
  if a = "XBT" then some 106 else none

/-- The ledger containing only `recDrift`. -/
def ledgerDrift : Ledger := fun a => if a = "XBT" then some recDrift else none

/-- The empty ledger. -/
def emptyLedger : Ledger := fun _ => none

/-- XBT trades flat at 100. -/
def priceFlat : String → Option ℚ := fun a =>
  if a = "XBT" then some 100 else none

/-- An ACTIVE row for the dotted staking token ETH.F. -/
def recDotted : Record :=
  { asset := "ETH.F", assetCode := "XETHF", pair := "ETH.FUSD",
    positionSize := 2, costBasis := some 10, currentPrice := 11,
    unrealizedPct := 10, athUnrealizedPct := 10, armed := false,
    status := RecStatus.ACTIVE, realizedPct := none }

/-- The ledger containing only `recDotted`. -/
def ledgerDotted : Ledger := fun a =>
  if a = "ETH.F" then some recDotted else none

/-! Helper lemmas shared by the claim theorems. -/

lemma loadState_status (price : ℚ) (prev : Option Record) :
    (loadState price prev).status = RecStatus.ACTIVE := by
  cases prev with
  | none => rfl
  | some r =>
      by_cases hr : r.status = RecStatus.ACTIVE <;> simp [loadState, hr]

lemma evalHolding_ath (cfg : Config) (b : String) (h : Holding) (price : ℚ)
    (ok : Bool) (prev : Option Record) :
    (evalHolding cfg b h price ok prev).athUnrealizedPct
      = cycleAth price prev := by
  unfold evalHolding
  split <;> rfl

lemma evalHolding_armed (cfg : Config) (b : String) (h : Holding) (price : ℚ)
    (ok : Bool) (prev : Option Record) :
    (evalHolding cfg b h price ok prev).armed = cycleArmed cfg price prev := by
  unfold evalHolding
  split <;> rfl

lemma armedAfterSignal_idem (cfg : Config) (ar : Bool) (u : ℚ) :
    armedAfterSignal cfg (armedAfterSignal cfg ar u) u
      = armedAfterSignal cfg ar u := by
  cases ar <;> unfold armedAfterSignal <;> split_ifs <;> simp_all

lemma cycleArmed_eq (cfg : Config) (p : ℚ) (prev : Option Record) :
    cycleArmed cfg p prev
      = armedAfterSignal cfg (loadState p prev).armed (cycleUnreal p prev) := by
  simp [cycleArmed, loadState_status]

lemma evalHolding_noSignal (cfg : Config) (b : String) (h : Holding) (p : ℚ)
    (ok : Bool) (prev : Option Record)
    (hn : cycleSignal cfg p prev = none) :
    evalHolding cfg b h p ok prev =
      { asset := h.altname, assetCode := h.assetCode, pair := h.altname ++ b,
        positionSize := h.balance,
        costBasis := some (loadState p prev).costBasisValue,
        currentPrice := p, unrealizedPct := cycleUnreal p prev,
        athUnrealizedPct := cycleAth p prev,
        armed := cycleArmed cfg p prev, status := RecStatus.ACTIVE,
        realizedPct := (loadState p prev).realizedPct } := by
  simp [evalHolding, hn]

lemma evalHolding_fixed (cfg : Config) (b : String) (h : Holding) (p : ℚ)
    (prev : Option Record)
    (h1 : cycleSignal cfg p prev = none)
    (h2 : cycleSignal cfg p (some (evalHolding cfg b h p true prev)) = none) :
    evalHolding cfg b h p true (some (evalHolding cfg b h p true prev))
      = evalHolding cfg b h p true prev := by
  have hr1 := evalHolding_noSignal cfg b h p true prev h1
  have hload : loadState p (some (evalHolding cfg b h p true prev)) =
      { status := RecStatus.ACTIVE,
        costBasisValue := (loadState p prev).costBasisValue,
        athUnreal := cycleAth p prev,
        armed := cycleArmed cfg p prev,
        realizedPct := (loadState p prev).realizedPct } := by
    rw [hr1]
    simp [loadState]
  have hu : cycleUnreal p (some (evalHolding cfg b h p true prev))
      = cycleUnreal p prev := by
    unfold cycleUnreal
    rw [hload]
  have hath : cycleAth p (some (evalHolding cfg b h p true prev))
      = cycleAth p prev := by
    unfold cycleAth
    rw [hload, hu]
    exact max_eq_left (le_max_right _ _)
  have harm : cycleArmed cfg p (some (evalHolding cfg b h p true prev))
      = cycleArmed cfg p prev := by
    rw [cycleArmed_eq, hload, hu]
    rw [cycleArmed_eq cfg p prev]
    exact armedAfterSignal_idem cfg (loadState p prev).armed (cycleUnreal p prev)
  have hfix := evalHolding_noSignal cfg b h p true
    (some (evalHolding cfg b h p true prev)) h2
  rw [hfix, hload, hu, hath, harm, hr1]

lemma getHoldings_no_dot (b : String) (assetInfo : List (String × String))
    (balances : List (String × ℚ)) :
    ∀ h ∈ getHoldings b assetInfo balances,
      h.altname.data.contains '.' = false := by
  intro h hh
  simp only [getHoldings, List.mem_filterMap] at hh
  obtain ⟨cb, hmem, hcb⟩ := hh
  split_ifs at hcb with h1 h2 h3 h4 <;>
    first
      | exact Option.noConfusion hcb
      | (obtain rfl : Holding.mk (altnameOf assetInfo cb.1) cb.1 cb.2 = h :=
           Option.some.inj hcb
         simpa using h4)

lemma lookupHolding_getHoldings_dot (b : String)
    (assetInfo : List (String × String)) (balances : List (String × ℚ))
    (a : String) (hdot : a.data.contains '.' = true) :
    lookupHolding (getHoldings b assetInfo balances) a = none := by
  unfold lookupHolding
  have hnil : (getHoldings b assetInfo balances).filter
      (fun h => h.altname = a) = [] := by
    rw [List.filter_eq_nil_iff]
    intro h hh
    have hnd := getHoldings_no_dot b assetInfo balances h hh
    simp only [decide_eq_true_eq]
    intro heq
    rw [heq, hdot] at hnd
    exact Bool.true_eq_false ▸ hnd
  rw [hnil]
  rfl

/-- C1: for an ACTIVE record, an armed evaluation raises
TRAILING_TAKE_PROFIT iff athUnrealizedPct - unrealizedPct ≥
trailingDropThreshold + feeBuffer; an unarmed one raises STOP_LOSS iff
unrealizedPct ≤ stopLossThreshold + feeBuffer, and otherwise arms iff
unrealizedPct ≥ armThreshold + feeBuffer; arming never raises a close
reason in the same cycle; the comparisons are inclusive (stated with
≥/≤), and each mode can raise only its own single reason. -/
theorem exit_signal_spec (cfg : Config) (armed : Bool) (ath u : ℚ) :
    (sellSignal cfg true ath u = some SellReason.TRAILING_TAKE_PROFIT
        ↔ ath - u ≥ cfg.TRAILING_DROP_PCT + cfg.FEE_BUFFER_PCT)
  ∧ (sellSignal cfg false ath u = some SellReason.STOP_LOSS
        ↔ u ≤ cfg.STOP_LOSS_PCT + cfg.FEE_BUFFER_PCT)
  ∧ (sellSignal cfg false ath u = none →
      (armedAfterSignal cfg false u = true
        ↔ u ≥ cfg.ARM_THRESHOLD_PCT + cfg.FEE_BUFFER_PCT))
  ∧ (armed = false → armedAfterSignal cfg armed u = true →
      sellSignal cfg armed ath u = none)
  ∧ sellSignal cfg true ath u ≠ some SellReason.STOP_LOSS
  ∧ sellSignal cfg false ath u ≠ some SellReason.TRAILING_TAKE_PROFIT := by
  unfold sellSignal armedAfterSignal
  refine ⟨?_, ?_, ?_, ?_, ?_, ?_⟩ <;> split_ifs <;> simp_all

/-- Witness for C1: with the default config, armed, ATH 10 and
unrealized 2, the trailing take-profit fires (drop 8 ≥ 3.5). -/
theorem exit_signal_spec_witness :
    sellSignal defaultConfig true 10 2 = some SellReason.TRAILING_TAKE_PROFIT :=
  (exit_signal_spec defaultConfig true 10 2).1.mpr (by norm_num [defaultConfig])

/-- C2: when a close reason is raised and the held quantity is positive,
liquidation is requested with the full held quantity; on success the row
becomes CLOSED with realizedPct = unrealizedPct - feeBuffer,
positionSize = 0, unrealizedPct = 0 and costBasis cleared; on failure
the row stays ACTIVE carrying the evaluator's fresh unrealizedPct,
athUnrealizedPct and armed values. -/
theorem liquidation_outcome (cfg : Config) (b : String) (h : Holding)
    (price : ℚ) (ok : Bool) (prev : Option Record)
    (hsig : (cycleSignal cfg price prev).isSome = true) (hbal : 0 < h.balance) :
    (∀ hs : (cycleSignal cfg price prev).isSome = true,
      sellRequest cfg b h price prev
        = some { pair := h.altname ++ b, volume := h.balance,
                 reason := (cycleSignal cfg price prev).get hs })
  ∧ (ok = true →
      evalHolding cfg b h price ok prev =
        { asset := h.altname, assetCode := h.assetCode, pair := h.altname ++ b,
          positionSize := 0, costBasis := none, currentPrice := price,
          unrealizedPct := 0, athUnrealizedPct := cycleAth price prev,
          armed := cycleArmed cfg price prev, status := RecStatus.CLOSED,
          realizedPct := some (cycleUnreal price prev - cfg.FEE_BUFFER_PCT) })
  ∧ (ok = false →
      (evalHolding cfg b h price ok prev).status = RecStatus.ACTIVE
      ∧ (evalHolding cfg b h price ok prev).positionSize = h.balance
      ∧ (evalHolding cfg b h price ok prev).unrealizedPct
          = cycleUnreal price prev
      ∧ (evalHolding cfg b h price ok prev).athUnrealizedPct
          = cycleAth price prev
      ∧ (evalHolding cfg b h price ok prev).armed
          = cycleArmed cfg price prev) := by
  obtain ⟨r, hr⟩ := Option.isSome_iff_exists.mp hsig
  refine ⟨?_, ?_, ?_⟩
  · intro hs
    simp [sellRequest, hr, hbal]
  · intro hok
    subst hok
    simp [evalHolding, hsig, hbal]
  · intro hok
    subst hok
    simp [evalHolding]

/-- Witness for C2: a stop-loss sell of XBT at 97 against cost basis 100
succeeds and finalizes the row as CLOSED. -/
theorem liquidation_outcome_witness :
    evalHolding defaultConfig "USD" ⟨"XBT", "XXBT", 1⟩ 97 true (some recStopW) =
      { asset := "XBT", assetCode := "XXBT", pair := "XBTUSD",
        positionSize := 0, costBasis := none, currentPrice := 97,
        unrealizedPct := 0, athUnrealizedPct := cycleAth 97 (some recStopW),
        armed := cycleArmed defaultConfig 97 (some recStopW),
        status := RecStatus.CLOSED,
        realizedPct := some (cycleUnreal 97 (some recStopW)
          - defaultConfig.FEE_BUFFER_PCT) } :=
  (liquidation_outcome defaultConfig "USD" ⟨"XBT", "XXBT", 1⟩ 97 true
    (some recStopW)
    (by simp [cycleSignal, loadState, recStopW, sellSignal, cycleAth,
          cycleUnreal, computeUnrealPct, defaultConfig]
        norm_num)
    (by norm_num)).2.1 rfl

/-- C3: a held asset whose row is missing or non-ACTIVE starts a fresh
campaign resetting exactly costBasis := current price,
athUnrealizedPct := 0, armed := false and clearing realizedPct; a
present ACTIVE row with blank costBasis only gets costBasis initialized
to the current price, carrying ATH, armed and realizedPct over (and a
defined costBasis is carried as is); the written row's identity fields
come from the held asset's altname/code in every branch alike. -/
theorem reactivation_frame (price : ℚ) (r : Record) :
    (r.status ≠ RecStatus.ACTIVE →
      loadState price (some r) =
        { status := RecStatus.ACTIVE, costBasisValue := price, athUnreal := 0,
          armed := false, realizedPct := none })
  ∧ (loadState price none =
      { status := RecStatus.ACTIVE, costBasisValue := price, athUnreal := 0,
        armed := false, realizedPct := none })
  ∧ (r.status = RecStatus.ACTIVE → r.costBasis = none →
      loadState price (some r) =
        { status := RecStatus.ACTIVE, costBasisValue := price,
          athUnreal := r.athUnrealizedPct, armed := r.armed,
          realizedPct := r.realizedPct })
  ∧ (r.status = RecStatus.ACTIVE → ∀ cb : ℚ, r.costBasis = some cb →
      loadState price (some r) =
        { status := RecStatus.ACTIVE, costBasisValue := cb,
          athUnreal := r.athUnrealizedPct, armed := r.armed,
          realizedPct := r.realizedPct })
  ∧ (∀ (cfg : Config) (b : String) (h : Holding) (ok : Bool)
        (prev : Option Record),
      (evalHolding cfg b h price ok prev).asset = h.altname
      ∧ (evalHolding cfg b h price ok prev).assetCode = h.assetCode
      ∧ (evalHolding cfg b h price ok prev).pair = h.altname ++ b) := by
  refine ⟨?_, rfl, ?_, ?_, ?_⟩
  · intro hr
    simp [loadState, hr]
  · intro hr hcb
    simp [loadState, hr, hcb]
  · intro hr cb hcb
    simp [loadState, hr, hcb]
  · intro cfg b h ok prev
    unfold evalHolding
    split <;> exact ⟨rfl, rfl, rfl⟩

/-- Witness for C3: reactivating the CLOSED ETH row at price 50 resets
exactly the campaign fields. -/
theorem reactivation_frame_witness :
    loadState 50 (some recClosedW) =
      { status := RecStatus.ACTIVE, costBasisValue := 50, athUnreal := 0,
        armed := false, realizedPct := none } :=
  (reactivation_frame 50 recClosedW).1 (by simp [recClosedW])

/-- C4: a previously ACTIVE record whose asset is absent from current
holdings transitions to CLOSED_EXTERNAL with positionSize = 0,
unrealizedPct = 0, costBasis cleared, athUnrealizedPct and armed kept as
last recorded, and realizedPct cleared. -/
theorem vanished_asset_closed_external (cfg : Config) (b : String)
    (holdings : List Holding) (price : String → Option ℚ)
    (ok : String → Bool) (L : Ledger) (a : String) (r : Record)
    (habs : lookupHolding holdings a = none) (hla : L a = some r)
    (hact : r.status = RecStatus.ACTIVE) :
    runOnce cfg b holdings price ok L a = some (closeExternal r)
  ∧ (closeExternal r).status = RecStatus.CLOSED_EXTERNAL
  ∧ (closeExternal r).positionSize = 0
  ∧ (closeExternal r).unrealizedPct = 0
  ∧ (closeExternal r).costBasis = none
  ∧ (closeExternal r).athUnrealizedPct = r.athUnrealizedPct
  ∧ (closeExternal r).armed = r.armed
  ∧ (closeExternal r).realizedPct = none := by
  refine ⟨?_, rfl, rfl, rfl, rfl, rfl, rfl, rfl⟩
  simp [runOnce, habs, hla, hact]

/-- Witness for C4: SOL vanishes from holdings while its row is ACTIVE,
so the cycle closes it externally. -/
theorem vanished_asset_closed_external_witness :
    runOnce defaultConfig "USD" [] (fun _ => none) (fun _ => false)
      ledgerSolW "SOL" = some (closeExternal recActiveW) :=
  (vanished_asset_closed_external defaultConfig "USD" [] (fun _ => none)
    (fun _ => false) ledgerSolW "SOL" recActiveW (by rfl)
    (by simp [ledgerSolW]) (by simp [recActiveW])).1

/-- C5: for positive costBasis the unrealized pct is exactly
(price - costBasis) / costBasis × 100, and a zero costBasis yields 0
with no division performed. -/
theorem unrealized_pct_spec (cb price : ℚ) :
    (0 < cb → computeUnrealPct cb price = (price - cb) / cb * 100)
  ∧ (cb = 0 → computeUnrealPct cb price = 0) := by
  constructor
  · intro hcb
    simp [computeUnrealPct, ne_of_gt hcb]
  · intro hcb
    simp [computeUnrealPct, hcb]

/-- Witness for C5 at costBasis 100 / price 106 and at costBasis 0. -/
theorem unrealized_pct_spec_witness :
    computeUnrealPct 100 106 = (106 - 100) / 100 * 100
  ∧ computeUnrealPct 0 106 = 0 :=
  ⟨(unrealized_pct_spec 100 106).1 (by norm_num),
   (unrealized_pct_spec 0 106).2 rfl⟩

/-- C6: evaluating a held asset never lowers athUnrealizedPct below the
prior ACTIVE row's value, keeps it at least the freshly computed
unrealizedPct, and every ACTIVE output row satisfies
athUnrealizedPct ≥ unrealizedPct. -/
theorem ath_running_max (cfg : Config) (b : String) (h : Holding) (price : ℚ)
    (ok : Bool) (prev : Option Record) (r : Record)
    (hact : r.status = RecStatus.ACTIVE) :
    (evalHolding cfg b h price ok (some r)).athUnrealizedPct
        ≥ r.athUnrealizedPct
  ∧ (evalHolding cfg b h price ok prev).athUnrealizedPct
        ≥ cycleUnreal price prev
  ∧ ((evalHolding cfg b h price ok prev).status = RecStatus.ACTIVE →
      (evalHolding cfg b h price ok prev).athUnrealizedPct
        ≥ (evalHolding cfg b h price ok prev).unrealizedPct) := by
  refine ⟨?_, ?_, ?_⟩
  · rw [evalHolding_ath]
    unfold cycleAth
    simp [loadState, hact]
  · rw [evalHolding_ath]
    unfold cycleAth
    exact le_max_right _ _
  · intro hst
    by_cases hc : (cycleSignal cfg price prev).isSome = true
        ∧ 0 < h.balance ∧ ok = true
    · simp [evalHolding, hc] at hst
    · simp only [evalHolding, if_neg hc]
      unfold cycleAth
      exact le_max_right _ _

/-- Witness for C6: evaluating the armed SOL row at price 25 keeps its
ATH of 30. -/
theorem ath_running_max_witness :
    (evalHolding defaultConfig "USD" ⟨"SOL", "SOL", 3⟩ 25 true
        (some recActiveW)).athUnrealizedPct ≥ recActiveW.athUnrealizedPct :=
  (ath_running_max defaultConfig "USD" ⟨"SOL", "SOL", 3⟩ 25 true
    (some recActiveW) recActiveW (by simp [recActiveW])).1

/-- C7: an ACTIVE record with armed = true keeps armed = true in the
record the cycle persists for it, whether the asset is still held (with
or without a price), sold, or absent (closed externally); only the
fresh-campaign reset on reactivation can clear the flag. -/
theorem armed_is_sticky (cfg : Config) (b : String) (holdings : List Holding)
    (price : String → Option ℚ) (ok : String → Bool) (L : Ledger) (a : String)
    (r : Record) (hla : L a = some r) (hact : r.status = RecStatus.ACTIVE)
    (harm : r.armed = true) :
    ∃ rr : Record, runOnce cfg b holdings price ok L a = some rr
      ∧ rr.armed = true := by
  unfold runOnce
  cases hlk : lookupHolding holdings a with
  | some h =>
      cases hp : price a with
      | some p =>
          refine ⟨_, rfl, ?_⟩
          rw [evalHolding_armed]
          unfold cycleArmed
          simp [hla, loadState, hact, harm, armedAfterSignal]
      | none => exact ⟨r, by simp [hla], harm⟩
  | none =>
      refine ⟨closeExternal r, by simp [hla, hact], ?_⟩
      simp [closeExternal, harm]

/-- Witness for C7: the armed SOL row stays armed through an
external-close cycle. -/
theorem armed_is_sticky_witness :
    ∃ rr : Record, runOnce defaultConfig "USD" [] (fun _ => none)
        (fun _ => false) ledgerSolW "SOL" = some rr ∧ rr.armed = true :=
  armed_is_sticky defaultConfig "USD" [] (fun _ => none) (fun _ => false)
    ledgerSolW "SOL" recActiveW (by simp [ledgerSolW]) (by simp [recActiveW])
    (by simp [recActiveW])

/-- C8: a record already CLOSED or CLOSED_EXTERNAL whose asset is absent
from current holdings is left completely unchanged by the cycle. -/
theorem closed_rows_untouched (cfg : Config) (b : String)
    (holdings : List Holding) (price : String → Option ℚ)
    (ok : String → Bool) (L : Ledger) (a : String) (r : Record)
    (habs : lookupHolding holdings a = none) (hla : L a = some r)
    (hcl : r.status = RecStatus.CLOSED
      ∨ r.status = RecStatus.CLOSED_EXTERNAL) :
    runOnce cfg b holdings price ok L a = some r := by
  have hne : ¬ r.status = RecStatus.ACTIVE := by
    rcases hcl with hcl | hcl <;> simp [hcl]
  simp [runOnce, habs, hla, hne]

/-- Witness for C8: the CLOSED ETH row of an absent asset survives a
cycle verbatim. -/
theorem closed_rows_untouched_witness :
    runOnce defaultConfig "USD" [] (fun _ => none) (fun _ => false)
      (fun a => if a = "ETH" then some recClosedW else none) "ETH"
      = some recClosedW :=
  closed_rows_untouched defaultConfig "USD" [] (fun _ => none) (fun _ => false)
    (fun a => if a = "ETH" then some recClosedW else none) "ETH" recClosedW
    (by rfl) (by simp) (by simp [recClosedW])

/-- C9 (amended): with identical holdings and prices and a dry-run
executor, the second cycle reproduces the first cycle's record for an
asset provided the evaluator raises no close reason for it in either
cycle; the unrestricted claim is refuted by `run_twice_differs`. -/
theorem dry_run_cycle_idempotent (cfg : Config) (b : String)
    (holdings : List Holding) (price : String → Option ℚ) (L : Ledger)
    (a : String)
    (hs : ∀ p : ℚ, price a = some p → lookupHolding holdings a ≠ none →
        cycleSignal cfg p (L a) = none
        ∧ cycleSignal cfg p
            (runOnce cfg b holdings price (fun _ => true) L a) = none) :
    runOnce cfg b holdings price (fun _ => true)
        (runOnce cfg b holdings price (fun _ => true) L) a
      = runOnce cfg b holdings price (fun _ => true) L a := by
  cases hlk : lookupHolding holdings a with
  | none =>
      cases hla : L a with
      | none => simp [runOnce, hlk, hla]
      | some r =>
          by_cases hr : r.status = RecStatus.ACTIVE
          · simp [runOnce, hlk, hla, hr, closeExternal]
          · simp [runOnce, hlk, hla, hr]
  | some h =>
      cases hp : price a with
      | none => simp [runOnce, hlk, hp]
      | some p =>
          obtain ⟨h1, h2⟩ := hs p hp (by simp [hlk])
          have estep : ∀ M : Ledger,
              runOnce cfg b holdings price (fun _ => true) M a
                = some (evalHolding cfg b h p true (M a)) := by
            intro M
            simp [runOnce, hlk, hp]
          rw [estep L] at h2
          rw [estep, estep L]
          exact congrArg some (evalHolding_fixed cfg b h p (L a) h1 h2)

/-- Counterexample to C9 as stated: starting from `recDrift` (unarmed,
ATH 100, cost basis 100) with XBT held at 106 and a dry-run executor,
the first cycle arms the row and the second closes it with a trailing
take-profit, so the two cycles' persisted records differ. -/
theorem run_twice_differs :
    runOnce defaultConfig "USD" holdingsDrift priceDrift (fun _ => true)
        (runOnce defaultConfig "USD" holdingsDrift priceDrift (fun _ => true)
          ledgerDrift) "XBT"
      ≠ runOnce defaultConfig "USD" holdingsDrift priceDrift (fun _ => true)
          ledgerDrift "XBT" := by
  simp [runOnce, lookupHolding, holdingsDrift, priceDrift, ledgerDrift,
    evalHolding, cycleSignal, cycleArmed, cycleAth, cycleUnreal, loadState,
    recDrift, computeUnrealPct, sellSignal, armedAfterSignal, defaultConfig,
    List.filter, List.getLast?]
  norm_num

/-- Witness for the amended C9: a fresh XBT position at a flat price of
100 raises no signal in either cycle, and the second cycle reproduces
the first cycle's row. -/
theorem dry_run_cycle_idempotent_witness :
    runOnce defaultConfig "USD" holdingsDrift priceFlat (fun _ => true)
        (runOnce defaultConfig "USD" holdingsDrift priceFlat (fun _ => true)
          emptyLedger) "XBT"
      = runOnce defaultConfig "USD" holdingsDrift priceFlat (fun _ => true)
          emptyLedger "XBT" :=
  dry_run_cycle_idempotent defaultConfig "USD" holdingsDrift priceFlat
    emptyLedger "XBT" (by
      intro p hp hne
      simp [priceFlat] at hp
      subst hp
      constructor
      · norm_num [cycleSignal, emptyLedger, loadState, sellSignal, cycleAth,
          cycleUnreal, computeUnrealPct, defaultConfig]
      · norm_num [runOnce, lookupHolding, holdingsDrift, priceFlat,
          emptyLedger, evalHolding, cycleSignal, cycleArmed, cycleAth,
          cycleUnreal, loadState, computeUnrealPct, sellSignal,
          armedAfterSignal, defaultConfig, List.filter, List.getLast?])

/-- C10: an exchange-reported asset whose altname contains '.' is
excluded from holdings even with a positive balance, so an ACTIVE record
for it is marked CLOSED_EXTERNAL with positionSize = 0 in the same cycle
although the asset is still held on the exchange. -/
theorem dotted_assets_closed_external (cfg : Config) (b : String)
    (assetInfo : List (String × String)) (balances : List (String × ℚ))
    (code : String) (bal : ℚ) (a : String)
    (hmem : (code, bal) ∈ balances) (hbal : 0 < bal)
    (haname : altnameOf assetInfo code = a) (hdot : a.data.contains '.' = true)
    (price : String → Option ℚ) (ok : String → Bool) (L : Ledger)
    (r : Record) (hla : L a = some r) (hact : r.status = RecStatus.ACTIVE) :
    lookupHolding (getHoldings b assetInfo balances) a = none
  ∧ runOnce cfg b (getHoldings b assetInfo balances) price ok L a
      = some (closeExternal r)
  ∧ (closeExternal r).status = RecStatus.CLOSED_EXTERNAL
  ∧ (closeExternal r).positionSize = 0 := by
  have hlk := lookupHolding_getHoldings_dot b assetInfo balances a hdot
  exact ⟨hlk, by simp [runOnce, hlk, hla, hact], rfl, rfl⟩

/-- Witness for C10: a held ETH.F balance of 2 is skipped by the
holdings builder and its ACTIVE row is closed externally. -/
theorem dotted_assets_closed_external_witness :
    runOnce defaultConfig "USD" (getHoldings "USD" [("XETHF", "ETH.F")]
        [("XETHF", 2)]) (fun _ => none) (fun _ => false) ledgerDotted "ETH.F"
      = some (closeExternal recDotted) :=
  (dotted_assets_closed_external defaultConfig "USD" [("XETHF", "ETH.F")]
    [("XETHF", 2)] "XETHF" 2 "ETH.F" (by simp) (by norm_num)
    (by rfl) (by rfl) (fun _ => none) (fun _ => false) ledgerDotted recDotted
    (by simp [ledgerDotted]) (by simp [recDotted])).2.1

end KrakenSeller
